import Mathlib

/-!
Verification development for `BCG_DesktopApp/main.py`.

The program is a small Qt desktop widget: a worker thread
(`SystemInfoRetrievalThread`) polls system metrics once per second,
optionally runs an internet speed test, and emits formatted strings to a
GUI shell (`SystemInfoApp`).  This file gives a shallow embedding of the
pure computational content of that program and proves properties about
it.

Numeric conventions of the embedding:
* Python floats are modelled by `ℚ`.  Every division performed by the
  program divides by a power of two (1024, 1024·1024, …), which is exact
  in binary floating point at the magnitudes involved, so the rational
  model computes the same values the program does.
* Python's fixed-point format specifier `.2f` rounds the value to two
  decimal digits with ties going to the even hundredth; `fmt2` models it
  for the non-negative values the program formats.
* Python renders an integral-valued float `x` (as produced by `divmod`
  on floats) as `str(x) = "<n>.0"`; `float_repr` models that rendering.
-/

/-- Rounding of a rational to the nearest integer with ties to even, the
rounding used by Python's `.2f` fixed-point formatting. -/
def round_half_even (q : ℚ) : ℤ :=
  let f := ⌊q⌋
  let r := q - (f : ℚ)
  if r < 1/2 then f
  else if 1/2 < r then f + 1
  else if f % 2 = 0 then f else f + 1

/-- Two-digit zero padding of a natural number below 100. -/
def pad2 (k : ℕ) : String :=
  if k < 10 then "0" ++ toString k else toString k

/-- Model of Python's `f"{q:.2f}"` for non-negative `q`: the value is
rounded to hundredths (ties to even) and printed with exactly two
digits after the decimal point. -/
def fmt2 (q : ℚ) : String :=
  let n := round_half_even (q * 100)
  toString (n / 100) ++ "." ++ pad2 (n % 100).toNat

/-- Model of Python's `f"{x}"` for the integral-valued non-negative
floats produced by the `divmod` chain in `get_uptime` (for example
`1.0` prints as `"1.0"`). -/
def float_repr (n : ℕ) : String := toString n ++ ".0"

/-- The unit ladder of `get_size` (main.py line 81). -/
def sizes : List String := ["B", "KB", "MB", "GB", "TB"]

/-- The loop of `get_size` (main.py lines 82-86): walk the unit ladder,
dividing by 1024 until the value drops below 1024 or the ladder is
exhausted; returns the final value together with the unit used (after
the loop the unit is `"TB"`). -/
def get_size_aux : List String → ℚ → ℚ × String
  | [], bytes => (bytes, "TB")
  | s :: rest, bytes =>
    if bytes < 1024 then (bytes, s) else get_size_aux rest (bytes / 1024)

/-- `SystemInfoRetrievalThread.get_size` (main.py lines 77-86): format a
byte count as `f"{value:.2f} {unit}"`. -/
def get_size (bytes : ℚ) : String :=
  fmt2 (get_size_aux sizes bytes).1 ++ " " ++ (get_size_aux sizes bytes).2

/-- `SystemInfoRetrievalThread.get_uptime` (main.py lines 88-97) for a
process that is `uptime_seconds` (an exact whole number of seconds) old.
The source computes `divmod` chains on floats; on an integral input every
quotient and remainder is an integral-valued float, so natural division
and remainder compute the same numbers, and each is rendered through
Python's float formatting (`float_repr`). -/
def get_uptime (uptime_seconds : ℕ) : String :=
  let minutes := uptime_seconds / 60
  let hours := minutes / 60
  let minutes2 := minutes % 60
  let days := hours / 24
  let hours2 := hours % 24
  float_repr days ++ " days, " ++ float_repr hours2 ++ " hours, " ++
    float_repr minutes2 ++ " minutes"

/-- `SystemInfoRetrievalThread.get_speed_test` (main.py lines 99-106) as
a function of the raw download measurement returned by the external
speed-test library (bits per second): the source computes
`st.download() / 1024 / 1024`. -/
def get_speed_test (raw_download : ℚ) : ℚ :=
  raw_download / 1024 / 1024

/-- System metrics as read from `psutil`/`platform` at the start of one
`get_system_info` call (main.py lines 52-62).  Byte counters and counts
are integers; the percentages are floats. -/
structure SysMetrics where
  platform_system : String
  platform_release : String
  platform_machine : String
  cpu_percent : ℚ
  memory_percent : ℚ
  memory_used : ℕ
  memory_available : ℕ
  disk_percent : ℚ
  disk_used : ℕ
  disk_free : ℕ
  bytes_sent : ℕ
  bytes_recv : ℕ
  uptime_seconds : ℕ
  processes_count : ℕ

/-- `SystemInfoRetrievalThread.get_system_info` (main.py lines 52-75):
the formatted multi-line snapshot string, as a function of the metrics
read at that tick. -/
def get_system_info (m : SysMetrics) : String :=
  "Platform: " ++ m.platform_system ++ " " ++ m.platform_release ++ " " ++
    m.platform_machine ++ "\n" ++
  "CPU Usage: " ++ fmt2 m.cpu_percent ++ "%\n" ++
  "Memory Usage: " ++ fmt2 m.memory_percent ++ "% " ++
  "(Used: " ++ get_size (m.memory_used : ℚ) ++ ", Free: " ++
    get_size (m.memory_available : ℚ) ++ ")\n" ++
  "Disk Usage: " ++ fmt2 m.disk_percent ++ "% " ++
  "(Used: " ++ get_size (m.disk_used : ℚ) ++ ", Free: " ++
    get_size (m.disk_free : ℚ) ++ ")\n" ++
  "Network Sent: " ++ fmt2 ((m.bytes_sent : ℚ) / (1024 * 1024)) ++ " MB\n" ++
  "Network Received: " ++ fmt2 ((m.bytes_recv : ℚ) / (1024 * 1024)) ++ " MB\n" ++
  "Processes Count: " ++ toString m.processes_count ++ "\n" ++
  "Uptime: " ++ get_uptime m.uptime_seconds

/-- Mutable state of `SystemInfoRetrievalThread` (main.py lines 25-29). -/
structure ThreadState where
  speed_test_requested : Bool
  last_speed_test_time : Option String
  last_speed_test_result : Option String

/-- Outcome of the fallible calls made inside one iteration of `run`
(main.py lines 36-48): `system_info` is what `get_system_info()`
returns, or the exception it raises; `speed_info` is what
`get_speed_test()` returns (already divided down to the reported unit),
or the exception it raises; `now` is `datetime.now()` formatted. -/
structure TickInput where
  system_info : Except String String
  speed_info : Except String ℚ
  now : String

/-- Signals emitted during one iteration of `run`:
`emitted_update` carries `update_signal.emit(system_info)` and
`emitted_speed` carries `speed_test_complete_signal.emit(speed, time)`. -/
structure TickOutput where
  emitted_update : Option String
  emitted_speed : Option (ℚ × String)

/-- Truth value of an `Except` being the success case. -/
def exceptOk {ε α : Type} : Except ε α → Bool
  | Except.ok _ => true
  | Except.error _ => false

/-- One iteration of the `while` loop in `SystemInfoRetrievalThread.run`
(main.py lines 35-50), following the `try`/`except` control flow: if
`get_system_info()` raises, nothing is emitted and the state is
unchanged; otherwise the snapshot is emitted, and if the request flag is
set the speed test runs — on success the result is emitted and the flag
is cleared, while on an exception control jumps to the `except` block
and the flag-clearing line is never reached. -/
def tick (s : ThreadState) (inp : TickInput) : ThreadState × TickOutput :=
  match inp.system_info with
  | Except.error _ => (s, ⟨none, none⟩)
  | Except.ok info =>
    if s.speed_test_requested then
      match inp.speed_info with
      | Except.error _ => (s, ⟨some info, none⟩)
      | Except.ok sp =>
        ({ speed_test_requested := false
           last_speed_test_time := some inp.now
           last_speed_test_result :=
             some ("Internet Speed: " ++ fmt2 sp ++ " Mbps") },
         ⟨some info, some (sp, inp.now)⟩)
    else (s, ⟨some info, none⟩)

/-- Duration of the sleep at the end of one loop iteration, as a
function of the milliseconds already spent on the tick's work: the
source executes `self.msleep(1000)` unconditionally (main.py line 50),
so the argument is ignored. -/
def tick_sleep_ms (elapsed_ms : ℕ) : ℕ := 1000

/-- Modelled from the spec (design step 4 of the poll loop): sleep for
the fixed 1000 ms interval minus the time already spent, with a floor of
zero.  Natural subtraction supplies the floor.  Stated only to be
compared against `tick_sleep_ms`. -/
def spec_sleep_ms (elapsed_ms : ℕ) : ℕ := 1000 - elapsed_ms

/-- The emissions of the `run` loop (main.py lines 31-50) over its first
`fuel` iterations: `intr i` is the value `isInterruptionRequested()`
returns at the check that precedes iteration `i`, and `inputs i` is the
outcome of iteration `i`'s fallible calls.  The loop exits at the first
check that observes an interruption request. -/
def loopTrace (intr : ℕ → Bool) (inputs : ℕ → TickInput) :
    ThreadState → ℕ → List TickOutput
  | _, 0 => []
  | s, fuel + 1 =>
    if intr 0 then []
    else
      let r := tick s (inputs 0)
      r.2 :: loopTrace (fun i => intr (i + 1)) (fun i => inputs (i + 1)) r.1 fuel

/-- State of the GUI shell `SystemInfoApp` that the verified operations
touch: the system-information label, the last-speed-test label, whether
`check_thread_timer` is active, and whether the worker thread is
running. -/
structure AppState where
  info_text : String
  last_speed_text : String
  timer_active : Bool
  thread_running : Bool

/-- `SystemInfoApp.update_info_label` (main.py lines 174-178). -/
def update_info_label (a : AppState) (system_info : String) : AppState :=
  { a with info_text := system_info }

/-- Text set by `SystemInfoApp.update_speed_test_info` (main.py lines
180-184): `f"Last Speed Test ({last_speed_test_time}): {speed_info:.2f} Mbps"`. -/
def update_speed_test_info (speed_info : ℚ) (last_speed_test_time : String) : String :=
  "Last Speed Test (" ++ last_speed_test_time ++ "): " ++ fmt2 speed_info ++ " Mbps"

/-- `SystemInfoApp.check_thread` (main.py lines 186-192): if the worker
thread is no longer running, stop the liveness timer and replace the
info label with the terminal message; otherwise do nothing. -/
def check_thread (a : AppState) : AppState :=
  if a.thread_running then a
  else { a with timer_active := false,
                info_text := "Thread stopped. Check your system." }

/-- One firing opportunity of `check_thread_timer`: a Qt timer invokes
its slot only while it is active (it has been started and not stopped),
so `check_thread` runs only when `timer_active` holds. -/
def timer_tick (a : AppState) : AppState :=
  if a.timer_active then check_thread a else a

/-- `SystemInfoApp.refresh_info` (main.py lines 194-198): the handler
calls `self.thread.get_system_info()` and discards the returned string;
no label is written. -/
def refresh_info (a : AppState) (m : SysMetrics) : AppState :=
  let _collected := get_system_info m
  a

/-! Helper lemmas for evaluating the formatting functions. -/

lemma round_half_even_eq (q : ℚ) (f : ℤ) (hf : (f : ℚ) ≤ q) (hf2 : q < f + 1) :
    round_half_even q =
      (if q - f < 1/2 then f else if 1/2 < q - f then f + 1
       else if f % 2 = 0 then f else f + 1) := by
  have h : ⌊q⌋ = f := by
    rw [Int.floor_eq_iff]
    exact ⟨hf, by exact_mod_cast hf2⟩
  simp only [round_half_even, h]

lemma fmt2_eq (q : ℚ) (n : ℤ) (h : round_half_even (q * 100) = n) :
    fmt2 q = toString (n / 100) ++ "." ++ pad2 (n % 100).toNat := by
  simp only [fmt2, h]

lemma pad2_length_fin : ∀ k : Fin 100, (pad2 k.val).length = 2 := by decide

lemma pad2_length {k : ℕ} (hk : k < 100) : (pad2 k).length = 2 :=
  pad2_length_fin ⟨k, hk⟩

lemma fmt2_split (q : ℚ) :
    ∃ intPart decPart : String,
      fmt2 q = intPart ++ "." ++ decPart ∧ decPart.length = 2 := by
  refine ⟨toString (round_half_even (q * 100) / 100),
    pad2 ((round_half_even (q * 100)) % 100).toNat, rfl, ?_⟩
  have h0 : (0 : ℤ) ≤ round_half_even (q * 100) % 100 :=
    Int.emod_nonneg _ (by norm_num)
  have h1 : round_half_even (q * 100) % 100 < 100 :=
    Int.emod_lt_of_pos _ (by norm_num)
  exact pad2_length (by omega)

lemma get_size_aux_stop (s : String) (rest : List String) (b : ℚ)
    (h : b < 1024) : get_size_aux (s :: rest) b = (b, s) := by
  simp [get_size_aux, h]

lemma get_size_aux_step (s : String) (rest : List String) (b : ℚ)
    (h : ¬ b < 1024) :
    get_size_aux (s :: rest) b = get_size_aux rest (b / 1024) := by
  simp [get_size_aux, h]

lemma get_size_aux_unit_mem (b : ℚ) :
    (get_size_aux sizes b).2 ∈ sizes ∧
      ((get_size_aux sizes b).2 ≠ "TB" → (get_size_aux sizes b).1 < 1024) := by
  simp only [sizes, get_size_aux]
  split_ifs <;> simp_all

lemma fmt2_one : fmt2 (1 : ℚ) = "1.00" := by
  have h : round_half_even ((1 : ℚ) * 100) = 100 := by
    rw [round_half_even_eq _ 100 (by norm_num) (by norm_num)]
    norm_num
  rw [fmt2_eq _ _ h]
  decide

lemma fmt2_two : fmt2 (2 : ℚ) = "2.00" := by
  have h : round_half_even ((2 : ℚ) * 100) = 200 := by
    rw [round_half_even_eq _ 200 (by norm_num) (by norm_num)]
    norm_num
  rw [fmt2_eq _ _ h]
  decide

lemma fmt2_42_5 : fmt2 (42.5 : ℚ) = "42.50" := by
  have h : round_half_even ((42.5 : ℚ) * 100) = 4250 := by
    rw [round_half_even_eq _ 4250 (by norm_num) (by norm_num)]
    norm_num
  rw [fmt2_eq _ _ h]
  decide

lemma fmt2_60 : fmt2 (60 : ℚ) = "60.00" := by
  have h : round_half_even ((60 : ℚ) * 100) = 6000 := by
    rw [round_half_even_eq _ 6000 (by norm_num) (by norm_num)]
    norm_num
  rw [fmt2_eq _ _ h]
  decide

lemma fmt2_80 : fmt2 (80 : ℚ) = "80.00" := by
  have h : round_half_even ((80 : ℚ) * 100) = 8000 := by
    rw [round_half_even_eq _ 8000 (by norm_num) (by norm_num)]
    norm_num
  rw [fmt2_eq _ _ h]
  decide

lemma get_size_6e9 : get_size (6000000000 : ℚ) = "5.59 GB" := by
  have haux : get_size_aux sizes (6000000000 : ℚ) =
      ((6000000000 : ℚ) / 1024 / 1024 / 1024, "GB") := by
    simp only [sizes]
    rw [get_size_aux_step _ _ _ (by norm_num), get_size_aux_step _ _ _ (by norm_num),
      get_size_aux_step _ _ _ (by norm_num), get_size_aux_stop _ _ _ (by norm_num)]
  have h : round_half_even ((6000000000 : ℚ) / 1024 / 1024 / 1024 * 100) = 559 := by
    rw [round_half_even_eq _ 558 (by norm_num) (by norm_num)]
    norm_num
  simp only [get_size, haux]
  rw [fmt2_eq _ _ h]
  decide

lemma get_size_4e9 : get_size (4000000000 : ℚ) = "3.73 GB" := by
  have haux : get_size_aux sizes (4000000000 : ℚ) =
      ((4000000000 : ℚ) / 1024 / 1024 / 1024, "GB") := by
    simp only [sizes]
    rw [get_size_aux_step _ _ _ (by norm_num), get_size_aux_step _ _ _ (by norm_num),
      get_size_aux_step _ _ _ (by norm_num), get_size_aux_stop _ _ _ (by norm_num)]
  have h : round_half_even ((4000000000 : ℚ) / 1024 / 1024 / 1024 * 100) = 373 := by
    rw [round_half_even_eq _ 372 (by norm_num) (by norm_num)]
    norm_num
  simp only [get_size, haux]
  rw [fmt2_eq _ _ h]
  decide

lemma get_size_800 : get_size (800 : ℚ) = "800.00 B" := by
  have haux : get_size_aux sizes (800 : ℚ) = ((800 : ℚ), "B") := by
    simp only [sizes]
    rw [get_size_aux_stop _ _ _ (by norm_num)]
  have h : round_half_even ((800 : ℚ) * 100) = 80000 := by
    rw [round_half_even_eq _ 80000 (by norm_num) (by norm_num)]
    norm_num
  simp only [get_size, haux]
  rw [fmt2_eq _ _ h]
  decide

lemma get_size_200 : get_size (200 : ℚ) = "200.00 B" := by
  have haux : get_size_aux sizes (200 : ℚ) = ((200 : ℚ), "B") := by
    simp only [sizes]
    rw [get_size_aux_stop _ _ _ (by norm_num)]
  have h : round_half_even ((200 : ℚ) * 100) = 20000 := by
    rw [round_half_even_eq _ 20000 (by norm_num) (by norm_num)]
    norm_num
  simp only [get_size, haux]
  rw [fmt2_eq _ _ h]
  decide

/-- Metrics of the spec's snapshot scenario: CPU 42.5 %, memory 60.0 %
with used 6 000 000 000 and available 4 000 000 000 bytes, disk 80.0 %,
network counters 1 048 576 bytes sent and 2 097 152 bytes received,
120 processes, a 90 061-second-old process.  The fields the scenario
leaves open (platform strings, disk byte counts) are filled with sample
values. -/
def scenarioMetrics : SysMetrics :=
  { platform_system := "Linux"
    platform_release := "6.0"
    platform_machine := "x86_64"
    cpu_percent := 42.5
    memory_percent := 60
    memory_used := 6000000000
    memory_available := 4000000000
    disk_percent := 80
    disk_used := 800
    disk_free := 200
    bytes_sent := 1048576
    bytes_recv := 2097152
    uptime_seconds := 90061
    processes_count := 120 }

set_option maxRecDepth 100000 in
lemma get_system_info_scenario :
    get_system_info scenarioMetrics =
      "Platform: Linux 6.0 x86_64\nCPU Usage: 42.50%\nMemory Usage: 60.00% (Used: 5.59 GB, Free: 3.73 GB)\nDisk Usage: 80.00% (Used: 800.00 B, Free: 200.00 B)\nNetwork Sent: 1.00 MB\nNetwork Received: 2.00 MB\nProcesses Count: 120\nUptime: 1.0 days, 1.0 hours, 1.0 minutes" := by
  have hc1 : ((6000000000 : ℕ) : ℚ) = 6000000000 := by norm_num
  have hc2 : ((4000000000 : ℕ) : ℚ) = 4000000000 := by norm_num
  have hc3 : ((800 : ℕ) : ℚ) = 800 := by norm_num
  have hc4 : ((200 : ℕ) : ℚ) = 200 := by norm_num
  have hc5 : ((1048576 : ℕ) : ℚ) / (1024 * 1024) = 1 := by norm_num
  have hc6 : ((2097152 : ℕ) : ℚ) / (1024 * 1024) = 2 := by norm_num
  simp only [get_system_info, scenarioMetrics, hc1, hc2, hc3, hc4, hc5, hc6,
    fmt2_42_5, fmt2_60, fmt2_80, fmt2_one, fmt2_two, get_size_6e9, get_size_4e9,
    get_size_800, get_size_200]
  decide

/-! Claim theorems. -/

/-- C1 counterexample: a tick that starts with the request flag set and
whose speed test raises an exception ends with the flag still set — the
`speed_test_requested = False` line sits after the speed-test call
inside the `try` block, so the jump to `except` skips it.  The claim
demands the flag be false here. -/
theorem c1_counterexample :
    (tick ⟨true, none, none⟩
      ⟨Except.ok "snapshot", Except.error "no server reachable",
        "2024-01-01 12:00:00"⟩).1.speed_test_requested = true := rfl

/-- C1 amended: for a tick that starts with the request flag set, the
flag is false after the tick exactly when both the metrics collection
and the speed test succeed; if either raises, the exception is caught
but the flag stays set, so the speed test is retried on the next
tick. -/
theorem c1_flag_after_tick (s : ThreadState) (inp : TickInput)
    (h : s.speed_test_requested = true) :
    (tick s inp).1.speed_test_requested =
      !(exceptOk inp.system_info && exceptOk inp.speed_info) := by
  rcases inp with ⟨si, sp, now⟩
  cases si <;> cases sp <;> simp [tick, exceptOk, h]

/-- C1 witness: a concrete tick with the flag set in which both calls
succeed, ending with the flag cleared. -/
theorem c1_flag_after_tick_witness :
    (⟨true, none, none⟩ : ThreadState).speed_test_requested = true ∧
    (tick ⟨true, none, none⟩
      ⟨Except.ok "snapshot", Except.ok 10, "2024-01-01 12:00:00"⟩).1.speed_test_requested =
      !(exceptOk (Except.ok "snapshot" : Except String String) &&
        exceptOk (Except.ok (10 : ℚ) : Except String ℚ)) :=
  ⟨rfl, c1_flag_after_tick _ _ rfl⟩

set_option maxRecDepth 100000 in
/-- C2: the Refresh handler computes `get_system_info()` but discards
the returned string; the application state — in particular the displayed
system-information text — is unchanged, and differs from the state an
immediate display update (`update_info_label`) would have produced. -/
theorem c2_refresh_discards_result :
    refresh_info ⟨"old info", "", true, true⟩ scenarioMetrics =
      ⟨"old info", "", true, true⟩ ∧
    refresh_info ⟨"old info", "", true, true⟩ scenarioMetrics ≠
      update_info_label ⟨"old info", "", true, true⟩
        (get_system_info scenarioMetrics) := by
  refine ⟨rfl, ?_⟩
  intro hEq
  have h2 := congrArg AppState.info_text hEq
  simp only [refresh_info, update_info_label] at h2
  rw [get_system_info_scenario] at h2
  exact absurd h2 (by decide)

/-- C3 counterexample: the uptime formatter applied to a 90 061-second
age does not produce the claimed string `"1 days, 1 hours, 1 minutes"` —
the `divmod` chain runs on floats, so the components render as `1.0`. -/
theorem c3_counterexample :
    get_uptime 90061 ≠ "1 days, 1 hours, 1 minutes" := by decide

set_option maxRecDepth 100000 in
/-- C3 amended: for a process exactly 90 061 seconds old the uptime
formatter produces `"1.0 days, 1.0 hours, 1.0 minutes"` (the quotients
are floats and render with a trailing `.0`), and the scenario snapshot
with sent = 1 048 576 and received = 2 097 152 bytes shows the network
lines `"Network Sent: 1.00 MB"` and `"Network Received: 2.00 MB"`. -/
theorem c3_scenario_strings :
    get_uptime 90061 = "1.0 days, 1.0 hours, 1.0 minutes" ∧
    get_system_info scenarioMetrics =
      "Platform: Linux 6.0 x86_64\nCPU Usage: 42.50%\nMemory Usage: 60.00% (Used: 5.59 GB, Free: 3.73 GB)\nDisk Usage: 80.00% (Used: 800.00 B, Free: 200.00 B)\nNetwork Sent: 1.00 MB\nNetwork Received: 2.00 MB\nProcesses Count: 120\nUptime: 1.0 days, 1.0 hours, 1.0 minutes" :=
  ⟨by decide, get_system_info_scenario⟩

/-- C4 counterexample: after a tick whose work took 1500 ms the loop
still sleeps 1000 ms, where the claimed interval-minus-elapsed rule
(with its floor at zero) would not sleep at all. -/
theorem c4_counterexample :
    tick_sleep_ms 1500 ≠ spec_sleep_ms 1500 := by decide

/-- C4 amended: the loop sleeps a fixed 1000 ms at the end of every
tick, regardless of how long the tick's work took; this agrees with the
claimed interval-minus-elapsed rule only for a tick whose work took no
time at all. -/
theorem c4_sleep_is_fixed (elapsed_ms : ℕ) :
    tick_sleep_ms elapsed_ms = 1000 ∧
    (tick_sleep_ms elapsed_ms = spec_sleep_ms elapsed_ms ↔ elapsed_ms = 0) := by
  refine ⟨rfl, ?_⟩
  simp only [tick_sleep_ms, spec_sleep_ms]
  omega

/-- C5 counterexample: a raw download measurement of 1 000 000 bits per
second is not reported as 1 000 000 / 1 000 000 = 1 Mbps; the source
divides by 1024·1024. -/
theorem c5_counterexample :
    get_speed_test 1000000 ≠ 1000000 / 1000000 := by
  norm_num [get_speed_test]

/-- C5 amended: the reported speed equals the raw bits-per-second
measurement divided by 1 048 576 (1024·1024, mebibits per second,
although the program labels it Mbps); it coincides with the claimed
division by 1 000 000 only when the measurement is zero. -/
theorem c5_speed_unit (r : ℚ) :
    get_speed_test r = r / 1048576 ∧
    (get_speed_test r = r / 1000000 ↔ r = 0) := by
  refine ⟨?_, ?_, ?_⟩
  · simp only [get_speed_test, div_div]
    norm_num
  · intro h
    simp only [get_speed_test, div_div] at h
    norm_num at h
    have h2 := (div_eq_div_iff (by norm_num : (1048576 : ℚ) ≠ 0)
      (by norm_num : (1000000 : ℚ) ≠ 0)).mp h
    linarith
  · intro h
    simp [h, get_speed_test]

/-- C6: for every byte count the size formatter produces
`"<value rendered with exactly two decimals> <unit>"` with the unit
drawn from the ladder B, KB, MB, GB, TB, and the value is below 1024
whenever the unit is not the last one. -/
theorem c6_size_format (B : ℕ) :
    ∃ (v : ℚ) (u intPart decPart : String),
      get_size (B : ℚ) = fmt2 v ++ " " ++ u ∧
      u ∈ sizes ∧
      (u ≠ "TB" → v < 1024) ∧
      fmt2 v = intPart ++ "." ++ decPart ∧ decPart.length = 2 := by
  obtain ⟨hmem, hlt⟩ := get_size_aux_unit_mem (B : ℚ)
  obtain ⟨ip, dp, hsplit, hlen⟩ := fmt2_split (get_size_aux sizes (B : ℚ)).1
  exact ⟨_, _, ip, dp, rfl, hmem, hlt, hsplit, hlen⟩

/-- C7: once an interruption request is observed (the monotone flag
`intr` is set by tick `k`), running the loop for any longer fuel
produces exactly the emissions produced up to that point — no snapshot
and no speed-test result is emitted after the loop exits, which is what
the caller of `stop()` observes after `requestInterruption()` plus
`wait()` return. -/
theorem c7_no_emissions_after_stop (intr : ℕ → Bool) (inputs : ℕ → TickInput)
    (s : ThreadState) (k n : ℕ)
    (hmono : ∀ i, intr i = true → intr (i + 1) = true)
    (hk : intr k = true) (hkn : k ≤ n) :
    loopTrace intr inputs s n = loopTrace intr inputs s k := by
  induction k generalizing intr inputs s n with
  | zero =>
    cases n with
    | zero => rfl
    | succ m => simp [loopTrace, hk]
  | succ k ih =>
    cases n with
    | zero => omega
    | succ m =>
      by_cases h0 : intr 0 = true
      · simp [loopTrace, h0]
      · simp only [loopTrace, h0, if_false, Bool.false_eq_true]
        exact congrArg _ (ih _ _ _ _ (fun i hi => hmono (i + 1) hi) hk (by omega))

/-- C7 witness: a concrete monotone interruption flag raised at tick 1;
running the loop with fuel 5 emits exactly what fuel 1 emits. -/
theorem c7_no_emissions_after_stop_witness :
    (fun j => decide (1 ≤ j)) 1 = true ∧
    loopTrace (fun j => decide (1 ≤ j))
        (fun _ => ⟨Except.ok "snapshot", Except.error "offline", "t"⟩)
        ⟨false, none, none⟩ 5 =
      loopTrace (fun j => decide (1 ≤ j))
        (fun _ => ⟨Except.ok "snapshot", Except.error "offline", "t"⟩)
        ⟨false, none, none⟩ 1 :=
  ⟨rfl, c7_no_emissions_after_stop _ _ _ 1 5 (fun i _ => by simp) rfl (by omega)⟩

/-- C8: when the liveness timer fires while the worker thread is dead,
the shell reaches the terminal state exactly once — the timer is
stopped, the display becomes the fixed terminal string, and both a
further timer firing and a further direct liveness check leave the
state unchanged. -/
theorem c8_liveness_terminal (a : AppState)
    (hdead : a.thread_running = false) (hact : a.timer_active = true) :
    (timer_tick a).timer_active = false ∧
    (timer_tick a).info_text = "Thread stopped. Check your system." ∧
    timer_tick (timer_tick a) = timer_tick a ∧
    check_thread (timer_tick a) = timer_tick a := by
  rcases a with ⟨it, ls, ta, tr⟩
  simp only at hdead hact
  subst hdead hact
  simp [timer_tick, check_thread]

/-- C8 witness: a concrete app state with an active timer and a dead
worker. -/
theorem c8_liveness_terminal_witness :
    (⟨"live", "", true, false⟩ : AppState).thread_running = false ∧
    (⟨"live", "", true, false⟩ : AppState).timer_active = true ∧
    ((timer_tick ⟨"live", "", true, false⟩).timer_active = false ∧
     (timer_tick ⟨"live", "", true, false⟩).info_text =
       "Thread stopped. Check your system." ∧
     timer_tick (timer_tick ⟨"live", "", true, false⟩) =
       timer_tick ⟨"live", "", true, false⟩ ∧
     check_thread (timer_tick ⟨"live", "", true, false⟩) =
       timer_tick ⟨"live", "", true, false⟩) :=
  ⟨rfl, rfl, c8_liveness_terminal _ rfl rfl⟩

/-- C9: a speed-test result of 55.37 Mbps completed at
`"2024-01-01 12:00:00"` renders the last-speed-test label exactly as
`"Last Speed Test (2024-01-01 12:00:00): 55.37 Mbps"`. -/
theorem c9_speed_label :
    update_speed_test_info (55.37 : ℚ) "2024-01-01 12:00:00" =
      "Last Speed Test (2024-01-01 12:00:00): 55.37 Mbps" := by
  have h : round_half_even ((55.37 : ℚ) * 100) = 5537 := by
    rw [round_half_even_eq _ 5537 (by norm_num) (by norm_num)]
    norm_num
  simp only [update_speed_test_info]
  rw [fmt2_eq _ _ h]
  decide

/-- C10: for any byte count of at least 1024⁵ the formatter runs off the
end of the unit ladder, divides one extra time, and reports
B / 1024⁵ labelled TB — an understatement by a factor of 1024 relative
to the TB (1024⁴ bytes) value B / 1024⁴. -/
theorem c10_tb_understated (B : ℚ) (h : 1024 ^ 5 ≤ B) :
    get_size B = fmt2 (B / 1024 ^ 5) ++ " " ++ "TB" ∧
    B / 1024 ^ 5 = B / 1024 ^ 4 / 1024 := by
  have h1024 : (0 : ℚ) < 1024 := by norm_num
  have hB : (1125899906842624 : ℚ) ≤ B := by norm_num at h; linarith
  have c0 : ¬ B < 1024 := by intro hc; linarith
  have c1 : ¬ B / 1024 < 1024 := by
    intro hc; rw [div_lt_iff h1024] at hc; norm_num at hc; linarith
  have c2 : ¬ B / 1024 / 1024 < 1024 := by
    intro hc; rw [div_lt_iff h1024, div_lt_iff h1024] at hc
    norm_num at hc; linarith
  have c3 : ¬ B / 1024 / 1024 / 1024 < 1024 := by
    intro hc
    rw [div_lt_iff h1024, div_lt_iff h1024, div_lt_iff h1024] at hc
    norm_num at hc; linarith
  have c4 : ¬ B / 1024 / 1024 / 1024 / 1024 < 1024 := by
    intro hc
    rw [div_lt_iff h1024, div_lt_iff h1024, div_lt_iff h1024,
      div_lt_iff h1024] at hc
    norm_num at hc; linarith
  have haux : get_size_aux sizes B =
      (B / 1024 / 1024 / 1024 / 1024 / 1024, "TB") := by
    simp only [sizes]
    rw [get_size_aux_step _ _ _ c0, get_size_aux_step _ _ _ c1,
      get_size_aux_step _ _ _ c2, get_size_aux_step _ _ _ c3,
      get_size_aux_step _ _ _ c4]
    rfl
  have hchain : B / 1024 / 1024 / 1024 / 1024 / 1024 = B / 1024 ^ 5 := by
    ring
  constructor
  · simp only [get_size, haux, hchain]
  · ring

/-- C10 witness: 1024⁵ bytes, one true tebibyte-of-tebibytes boundary
case, reported as 1024⁵ / 1024⁵ = 1 TB. -/
theorem c10_tb_understated_witness :
    (1024 : ℚ) ^ 5 ≤ 1024 ^ 5 ∧
    (get_size ((1024 : ℚ) ^ 5) =
        fmt2 ((1024 : ℚ) ^ 5 / 1024 ^ 5) ++ " " ++ "TB" ∧
      (1024 : ℚ) ^ 5 / 1024 ^ 5 = (1024 : ℚ) ^ 5 / 1024 ^ 4 / 1024) :=
  ⟨le_refl _, c10_tb_understated _ (le_refl _)⟩
